import Mathlib

/-!
Shallow embedding of the resilient caching fetch client of
`ransomwarelive_terminal.py` (functions `get_cached`, `set_cache`,
`fetch_endpoint`, lines 43-102), together with theorems settling the
frozen claims about it.

Modelling conventions:
- Python JSON values are modelled by the inductive `Json`; the Python
  value `None` is identified with the JSON value `null` (`Json.jnull`),
  exactly as in CPython where `json.loads "null"` returns `None` and
  `json.dumps None` returns `"null"`.
- The serialized text stored in the sqlite `response` column is modelled
  by `StoredText`: every string is either the (unique) serialization of
  some JSON value, or fails to parse.  `json.loads` is `pyLoads`, which
  raises (`Except.error`) on unparseable text; `json.dumps` is `pyDumps`.
- The sqlite table keyed by a primary key is modelled as an association
  list `Cache`; `SELECT ... WHERE key = ?` + `fetchone` is `lookupRow`,
  and `INSERT ... ON CONFLICT(key) DO UPDATE` is `upsert`.
- The HTTP transport (`requests.get(BASE_URL + path, timeout=10)`) is a
  function from the attempt number to a `TransportOutcome`: either a
  raised `requests.RequestException` (`exn`) or a response carrying a
  status code, the optional `Retry-After` header value, and the outcome
  of `resp.json()` (which raises on a malformed body).
- `str.isdigit` accepts every Unicode digit-type character while `int()`
  converts only decimal-digit strings of at most 4300 digits (CPython's
  conversion limit) and raises `ValueError` otherwise, so line 89 can
  raise on a hint such as the superscript two.  `pyCharIsDigit` models
  the digit-type characters by the ASCII decimal digits plus the
  superscript digits (a documented subset of the full Unicode tables:
  other Unicode numeric characters are not modelled), and `pyInt`
  (`Except`-valued) models `int()` with its raise paths.
- Wall-clock time is threaded explicitly: `time.sleep(wait)` advances
  the current time by `wait`; network latency is not modelled.
- A run of `fetch_endpoint` is summarised by a `FetchResult`: the value
  returned (or the exception propagated, as `Except.error`), the final
  cache state, the list of sleep durations in order, and the number of
  transport requests issued.
-/

/-- JSON values as produced by Python's `json` module, with `jnull`
doubling as the Python value `None`. -/
inductive Json where
  | jnull
  | jbool (b : Bool)
  | jnum (n : Int)
  | jstr (s : String)
  | jarr (elems : List Json)
  | jobj (fields : List (String × Json))

/-- A string viewed through the lens of `json.loads`: either the
serialization of a unique JSON value, or text that fails to parse. -/
inductive StoredText where
  | ser (v : Json)
  | corrupt

/-- Model of `json.loads`: parses a serialization back to its value and
raises (`.error`) on corrupt text. -/
def pyLoads : StoredText → Except Unit Json
  | .ser v => .ok v
  | .corrupt => .error ()

/-- Model of `json.dumps`: always produces valid serialized text. -/
def pyDumps (v : Json) : StoredText := .ser v

/-- Configuration constant `BASE_URL` (line 16). -/
def BASE_URL : String := "https://api.ransomware.live/v2"

/-- Configuration constant `CACHE_TTL` (line 18), in seconds. -/
def CACHE_TTL : Nat := 3600

/-- Configuration constant `MAX_RETRIES` (line 19). -/
def MAX_RETRIES : Nat := 5

/-- Configuration constant `BACKOFF_INITIAL` (line 20). -/
def BACKOFF_INITIAL : Nat := 1

/-- Configuration constant `BACKOFF_MAX` (line 21). -/
def BACKOFF_MAX : Nat := 60

/-- The sqlite `cache` table: rows of key, response text, timestamp,
with `key` the primary key. -/
abbrev Cache := List (String × StoredText × Nat)

/-- Model of `SELECT response, timestamp FROM cache WHERE key = ?`
followed by `fetchone` (lines 45-46). -/
def lookupRow : Cache → String → Option (StoredText × Nat)
  | [], _ => none
  | (k, row) :: rest, key => if k = key then some row else lookupRow rest key

/-- Model of `INSERT INTO cache ... ON CONFLICT(key) DO UPDATE`
(lines 58-64): replaces the row for `key` if present, inserts otherwise. -/
def upsert : Cache → String → StoredText × Nat → Cache
  | [], key, row => [(key, row)]
  | (k, r) :: rest, key, row =>
    if k = key then (key, row) :: rest else (k, r) :: upsert rest key row

/-- Embedding of `get_cached` (lines 43-51).  `now` is the value of
`time.time()`.  Returns `.error ()` when `json.loads` raises on the
stored text (the source has no handler for this), `.ok .jnull` for a
miss or a stale row (Python `return None`), and `.ok v` otherwise. -/
def get_cached (cache : Cache) (now : Nat) (key : String) : Except Unit Json :=
  match lookupRow cache key with
  | some (resp_text, ts) =>
    if (now : Int) - (ts : Int) < (CACHE_TTL : Int) then pyLoads resp_text
    else .ok .jnull
  | none => .ok .jnull

/-- Embedding of `set_cache` (lines 54-65): upserts the serialized data
with the current timestamp. -/
def set_cache (cache : Cache) (now : Nat) (key : String) (data : Json) : Cache :=
  upsert cache key (pyDumps data, now)

/-- Outcome of one `requests.get` call: a raised `RequestException`, or
a response with its status code, optional `Retry-After` header, and the
outcome of `resp.json()` (`.error` when the body is malformed and
`resp.json()` would raise). -/
inductive TransportOutcome where
  | exn
  | resp (status : Nat) (retryAfter : Option String) (body : Except Unit Json)

/-- Model of Python's per-character digit-type test used by `str.isdigit`:
the ASCII decimal digits plus the superscript digits, a documented subset
of Unicode's digit-type characters.  The superscripts have digit type but
are not decimal digits, so `int()` raises on them. -/
def pyCharIsDigit (c : Char) : Bool :=
  c.isDigit || ['⁰', '¹', '²', '³', '⁴', '⁵', '⁶', '⁷', '⁸', '⁹'].contains c

/-- Model of Python `str.isdigit`: true iff the string is nonempty and all
characters have digit type. -/
def pyIsDigit (s : String) : Bool := !s.data.isEmpty && s.data.all pyCharIsDigit

/-- Value of Python `int(s)` on a decimal-digit-only string. -/
def pyIntOfDigits (s : String) : Nat :=
  s.data.foldl (fun acc c => acc * 10 + (c.toNat - 48)) 0

/-- CPython's default integer-string conversion limit
(`sys.get_int_max_str_digits()`): `int()` raises `ValueError` on longer
digit strings. -/
def PY_MAX_INT_DIGITS : Nat := 4300

/-- Model of Python `int(s)` as applied on line 89: succeeds exactly on
decimal-digit strings of at most `PY_MAX_INT_DIGITS` digits, and raises
`ValueError` (`.error`) otherwise — in particular on digit-type characters
that are not decimal digits, such as the superscripts. -/
def pyInt (s : String) : Except Unit Nat :=
  if s.data.all Char.isDigit ∧ s.data.length ≤ PY_MAX_INT_DIGITS then
    .ok (pyIntOfDigits s)
  else .error ()

/-- Line 89: `wait = int(ra) if ra and ra.isdigit() else backoff`.  The
`int(ra)` call can raise `ValueError` even under the `isdigit` guard, and
that exception is not caught anywhere in `fetch_endpoint`. -/
def retryWait (ra : Option String) (backoff : Nat) : Except Unit Nat :=
  match ra with
  | none => .ok backoff
  | some s => if pyIsDigit s then pyInt s else .ok backoff

/-- A `Retry-After` header value on which line 89 does not raise: either
absent, or failing `isdigit`, or `int()`-convertible. -/
def hintOk (ra : Option String) : Prop :=
  ∀ s, ra = some s → pyIsDigit s = true → ∃ w, pyInt s = .ok w

/-- Observable summary of one `fetch_endpoint` call: the returned value
(`.error ()` when an exception escapes the function), the final cache
state, the sleep durations in order, and how many transport requests
were made. -/
structure FetchResult where
  ret : Except Unit Json
  cache : Cache
  sleeps : List Nat
  requests : Nat

/-- Embedding of the retry loop of `fetch_endpoint` (lines 74-102).
`fuel` is the number of loop iterations left (`MAX_RETRIES` at entry),
`attempt` the 1-based attempt counter, `sleeps` and `reqs` the
accumulated observations.  Branch order mirrors the source: the
`requests.get` try/except, then status 200, then 429, then 404/other.
On 200 the body parse outcome is consumed outside the try block, so a
malformed body propagates as `.error ()`.  On 429 the wait is computed
first (line 89): if `int(ra)` raises there, the exception propagates
before any sleep and before the backoff update. -/
def fetch_loop (transport : Nat → TransportOutcome) (key : String) :
    Nat → Cache → Nat → Nat → Nat → List Nat → Nat → FetchResult
  | 0, cache, _, _, _, sleeps, reqs => ⟨.ok .jnull, cache, sleeps, reqs⟩
  | fuel + 1, cache, now, backoff, attempt, sleeps, reqs =>
    match transport attempt with
    | .exn => ⟨.ok .jnull, cache, sleeps, reqs + 1⟩
    | .resp status ra body =>
      if status = 200 then
        match body with
        | .ok data => ⟨.ok data, set_cache cache now key data, sleeps, reqs + 1⟩
        | .error _ => ⟨.error (), cache, sleeps, reqs + 1⟩
      else if status = 429 then
        match retryWait ra backoff with
        | .error e => ⟨.error e, cache, sleeps, reqs + 1⟩
        | .ok wait =>
          fetch_loop transport key fuel cache (now + wait)
            (min (backoff * 2) BACKOFF_MAX) (attempt + 1) (sleeps ++ [wait]) (reqs + 1)
      else
        ⟨.ok .jnull, cache, sleeps, reqs + 1⟩

/-- Embedding of `fetch_endpoint` (lines 68-102).  Computes the cache
key, consults `get_cached` (whose `json.loads` exception, if any,
propagates: the call is not inside a try block), returns a non-`None`
cached value directly, and otherwise enters the retry loop. -/
def fetch_endpoint (transport : Nat → TransportOutcome) (cache : Cache)
    (now : Nat) (path : String) : FetchResult :=
  let key := BASE_URL ++ path
  match get_cached cache now key with
  | .error e => ⟨.error e, cache, [], 0⟩
  | .ok .jnull => fetch_loop transport key MAX_RETRIES cache now BACKOFF_INITIAL 1 [] 0
  | .ok cached => ⟨.ok cached, cache, [], 0⟩

/-- Transport stub: four 429 responses with no hint, then 200 with payload 1. -/
def stub429x4then200 : Nat → TransportOutcome := fun i =>
  if i = 5 then .resp 200 none (.ok (.jnum 1)) else .resp 429 none (.ok .jnull)

/-- Transport stub: 429 with hint "3", then 429 with no hint, then 200. -/
def stubHintThen429 : Nat → TransportOutcome := fun i =>
  if i = 1 then .resp 429 (some "3") (.ok .jnull)
  else if i = 2 then .resp 429 none (.ok .jnull)
  else .resp 200 none (.ok (.jnum 1))

/-- Transport stub: every attempt is rate-limited with no hint. -/
def stubAlways429 : Nat → TransportOutcome := fun _ => .resp 429 none (.ok .jnull)

/-- Transport stub: one 429, then a raised transport exception. -/
def stub429ThenExn : Nat → TransportOutcome := fun i =>
  if i = 1 then .resp 429 none (.ok .jnull) else .exn

/-- Transport stub: every attempt returns 404. -/
def stub404 : Nat → TransportOutcome := fun _ => .resp 404 none (.ok .jnull)

/-- A row just upserted is the one found by a lookup for its key. -/
theorem lookupRow_upsert (c : Cache) (key : String) (row : StoredText × Nat) :
    lookupRow (upsert c key row) key = some row := by
  induction c with
  | nil => simp [upsert, lookupRow]
  | cons hd tl ih =>
    obtain ⟨k, r⟩ := hd
    by_cases h : k = key
    · simp [upsert, h, lookupRow]
    · simp [upsert, h, lookupRow, ih]

/-- A hint on which line 89 does not raise lets `retryWait` return a wait
value, for any current backoff. -/
theorem retryWait_ok (ra : Option String) (backoff : Nat) (h : hintOk ra) :
    ∃ w, retryWait ra backoff = .ok w := by
  cases ra with
  | none => exact ⟨backoff, rfl⟩
  | some s =>
    by_cases hd : pyIsDigit s = true
    · obtain ⟨w, hw⟩ := h s rfl hd
      exact ⟨w, by simp [retryWait, hd, hw]⟩
    · exact ⟨backoff, by simp [retryWait, hd]⟩

/-- If every 200 response in the transport has a parseable body and every
429 response carries a hint on which line 89 does not raise, the retry
loop never propagates an exception: it always returns a value. -/
theorem fetch_loop_ok (transport : Nat → TransportOutcome) (key : String)
    (hbody : ∀ i ra b, transport i = .resp 200 ra b → ∃ w, b = .ok w)
    (hhint : ∀ i ra b, transport i = .resp 429 ra b → hintOk ra) :
    ∀ fuel cache now backoff attempt sleeps reqs,
      ∃ v, (fetch_loop transport key fuel cache now backoff attempt sleeps reqs).ret
        = .ok v := by
  intro fuel
  induction fuel with
  | zero => intro cache now backoff attempt sleeps reqs; exact ⟨.jnull, rfl⟩
  | succ fuel ih =>
    intro cache now backoff attempt sleeps reqs
    cases htr : transport attempt with
    | exn => exact ⟨.jnull, by simp [fetch_loop, htr]⟩
    | resp status ra body =>
      by_cases h200 : status = 200
      · obtain ⟨w, hw⟩ := hbody attempt ra body (h200 ▸ htr)
        exact ⟨w, by simp [fetch_loop, htr, h200, hw]⟩
      · by_cases h429 : status = 429
        · obtain ⟨w, hw⟩ := retryWait_ok ra backoff (hhint attempt ra body (h429 ▸ htr))
          obtain ⟨v, hv⟩ := ih cache (now + w)
            (min (backoff * 2) BACKOFF_MAX) (attempt + 1) (sleeps ++ [w]) (reqs + 1)
          exact ⟨v, by
            simp only [fetch_loop, htr]; rw [if_neg h200, if_pos h429, hw]; exact hv⟩
        · exact ⟨.jnull, by simp [fetch_loop, htr, h200, h429]⟩

/-- The retry loop either leaves the cache untouched, or some attempt got a
200 response with a parseable body, whose payload was upserted for the loop
key and returned. -/
theorem fetch_loop_cache_write (transport : Nat → TransportOutcome) (key : String) :
    ∀ fuel cache now backoff attempt sleeps reqs,
      (fetch_loop transport key fuel cache now backoff attempt sleeps reqs).cache = cache ∨
      ∃ i ra d t2, transport i = .resp 200 ra (.ok d) ∧
        (fetch_loop transport key fuel cache now backoff attempt sleeps reqs).cache
          = set_cache cache t2 key d ∧
        (fetch_loop transport key fuel cache now backoff attempt sleeps reqs).ret
          = .ok d := by
  intro fuel
  induction fuel with
  | zero => intro cache now backoff attempt sleeps reqs; exact Or.inl rfl
  | succ fuel ih =>
    intro cache now backoff attempt sleeps reqs
    cases htr : transport attempt with
    | exn => exact Or.inl (by simp [fetch_loop, htr])
    | resp status ra body =>
      by_cases h200 : status = 200
      · cases body with
        | ok d =>
          refine Or.inr ⟨attempt, ra, d, now, h200 ▸ htr, ?_, ?_⟩ <;>
            simp [fetch_loop, htr, h200]
        | error e => exact Or.inl (by simp [fetch_loop, htr, h200])
      · by_cases h429 : status = 429
        · cases hw : retryWait ra backoff with
          | error e => exact Or.inl (by simp [fetch_loop, htr, h200, h429, hw])
          | ok w =>
            have hstep :
                fetch_loop transport key (fuel + 1) cache now backoff attempt sleeps reqs
                  = fetch_loop transport key fuel cache (now + w)
                      (min (backoff * 2) BACKOFF_MAX) (attempt + 1)
                      (sleeps ++ [w]) (reqs + 1) := by
              simp only [fetch_loop, htr]; rw [if_neg h200, if_pos h429, hw]
            rw [hstep]
            exact ih cache (now + w) (min (backoff * 2) BACKOFF_MAX)
              (attempt + 1) (sleeps ++ [w]) (reqs + 1)
        · exact Or.inl (by simp [fetch_loop, htr, h200, h429])

/-- If every attempt in the remaining window is rate-limited with a hint on
which line 89 does not raise, the retry loop exhausts its budget, returns
the Python `None`, and leaves the cache as it found it. -/
theorem fetch_loop_429_all (transport : Nat → TransportOutcome) (key : String) :
    ∀ fuel attempt cache now backoff sleeps reqs,
      (∀ i, attempt ≤ i → i < attempt + fuel →
        ∃ ra b, transport i = .resp 429 ra b ∧ hintOk ra) →
      (fetch_loop transport key fuel cache now backoff attempt sleeps reqs).ret
          = .ok .jnull ∧
      (fetch_loop transport key fuel cache now backoff attempt sleeps reqs).cache
          = cache := by
  intro fuel
  induction fuel with
  | zero => intro attempt cache now backoff sleeps reqs _; exact ⟨rfl, rfl⟩
  | succ fuel ih =>
    intro attempt cache now backoff sleeps reqs h
    obtain ⟨ra, b, htr, hok⟩ := h attempt (Nat.le_refl _) (by omega)
    obtain ⟨w, hw⟩ := retryWait_ok ra backoff hok
    have hstep :
        fetch_loop transport key (fuel + 1) cache now backoff attempt sleeps reqs
          = fetch_loop transport key fuel cache (now + w)
              (min (backoff * 2) BACKOFF_MAX) (attempt + 1)
              (sleeps ++ [w]) (reqs + 1) := by
      simp [fetch_loop, htr, hw]
    rw [hstep]
    exact ih (attempt + 1) cache (now + w)
      (min (backoff * 2) BACKOFF_MAX) (sleeps ++ [w]) (reqs + 1)
      (fun i hi1 hi2 => h i (by omega) (by omega))

/-- If all attempts strictly before `k` are rate-limited with non-raising
hints and attempt `k` raises a transport exception, the loop stops at
attempt `k`: it returns the Python `None`, does not touch the cache, and
has made exactly the requests up to and including `k`. -/
theorem fetch_loop_exn_stop (transport : Nat → TransportOutcome) (key : String) (k : Nat) :
    ∀ fuel attempt cache now backoff sleeps reqs,
      attempt ≤ k → k < attempt + fuel →
      (∀ i, attempt ≤ i → i < k → ∃ ra b, transport i = .resp 429 ra b ∧ hintOk ra) →
      transport k = .exn →
      (fetch_loop transport key fuel cache now backoff attempt sleeps reqs).ret
          = .ok .jnull ∧
      (fetch_loop transport key fuel cache now backoff attempt sleeps reqs).cache
          = cache ∧
      (fetch_loop transport key fuel cache now backoff attempt sleeps reqs).requests
          = reqs + (k + 1 - attempt) := by
  intro fuel
  induction fuel with
  | zero => intro attempt cache now backoff sleeps reqs hak hkb _ _; omega
  | succ fuel ih =>
    intro attempt cache now backoff sleeps reqs hak hkb h429 hexn
    by_cases heq : attempt = k
    · subst heq
      refine ⟨?_, ?_, ?_⟩ <;> simp [fetch_loop, hexn]
    · obtain ⟨ra, b, htr, hok⟩ := h429 attempt (Nat.le_refl _) (by omega)
      obtain ⟨w, hw⟩ := retryWait_ok ra backoff hok
      have hstep :
          fetch_loop transport key (fuel + 1) cache now backoff attempt sleeps reqs
            = fetch_loop transport key fuel cache (now + w)
                (min (backoff * 2) BACKOFF_MAX) (attempt + 1)
                (sleeps ++ [w]) (reqs + 1) := by
        simp [fetch_loop, htr, hw]
      rw [hstep]
      obtain ⟨hret, hcache, hreq⟩ := ih (attempt + 1) cache (now + w)
        (min (backoff * 2) BACKOFF_MAX) (sleeps ++ [w]) (reqs + 1)
        (by omega) (by omega) (fun i hi1 hi2 => h429 i (by omega) hi2) hexn
      exact ⟨hret, hcache, by rw [hreq]; omega⟩

/-- The sleeps recorded by the retry loop extend the accumulator it was
started with. -/
theorem fetch_loop_sleeps_acc (transport : Nat → TransportOutcome) (key : String) :
    ∀ fuel cache now backoff attempt sleeps reqs,
      ∃ rest, (fetch_loop transport key fuel cache now backoff attempt sleeps reqs).sleeps
        = sleeps ++ rest := by
  intro fuel
  induction fuel with
  | zero => intro cache now backoff attempt sleeps reqs; exact ⟨[], by simp [fetch_loop]⟩
  | succ fuel ih =>
    intro cache now backoff attempt sleeps reqs
    cases htr : transport attempt with
    | exn => exact ⟨[], by simp [fetch_loop, htr]⟩
    | resp status ra body =>
      by_cases h200 : status = 200
      · cases body with
        | ok d => exact ⟨[], by simp [fetch_loop, htr, h200]⟩
        | error e => exact ⟨[], by simp [fetch_loop, htr, h200]⟩
      · by_cases h429 : status = 429
        · cases hw : retryWait ra backoff with
          | error e => exact ⟨[], by simp [fetch_loop, htr, h200, h429, hw]⟩
          | ok w =>
            obtain ⟨rest, hrest⟩ := ih cache (now + w)
              (min (backoff * 2) BACKOFF_MAX) (attempt + 1) (sleeps ++ [w]) (reqs + 1)
            refine ⟨w :: rest, ?_⟩
            have hstep :
                fetch_loop transport key (fuel + 1) cache now backoff attempt sleeps reqs
                  = fetch_loop transport key fuel cache (now + w)
                      (min (backoff * 2) BACKOFF_MAX) (attempt + 1)
                      (sleeps ++ [w]) (reqs + 1) := by
              simp only [fetch_loop, htr]; rw [if_neg h200, if_pos h429, hw]
            rw [hstep, hrest]
            simp
        · exact ⟨[], by simp [fetch_loop, htr, h200, h429]⟩

/-- The request counter of the retry loop never decreases. -/
theorem fetch_loop_req_mono (transport : Nat → TransportOutcome) (key : String) :
    ∀ fuel cache now backoff attempt sleeps reqs,
      reqs ≤ (fetch_loop transport key fuel cache now backoff attempt sleeps reqs).requests := by
  intro fuel
  induction fuel with
  | zero => intro cache now backoff attempt sleeps reqs; exact Nat.le_refl _
  | succ fuel ih =>
    intro cache now backoff attempt sleeps reqs
    cases htr : transport attempt with
    | exn => simp [fetch_loop, htr]
    | resp status ra body =>
      by_cases h200 : status = 200
      · cases body with
        | ok d => simp [fetch_loop, htr, h200]
        | error e => simp [fetch_loop, htr, h200]
      · by_cases h429 : status = 429
        · cases hw : retryWait ra backoff with
          | error e => simp [fetch_loop, htr, h200, h429, hw]
          | ok w =>
            have hstep :
                fetch_loop transport key (fuel + 1) cache now backoff attempt sleeps reqs
                  = fetch_loop transport key fuel cache (now + w)
                      (min (backoff * 2) BACKOFF_MAX) (attempt + 1)
                      (sleeps ++ [w]) (reqs + 1) := by
              simp only [fetch_loop, htr]; rw [if_neg h200, if_pos h429, hw]
            rw [hstep]
            exact Nat.le_trans (Nat.le_succ _) (ih cache (now + w)
              (min (backoff * 2) BACKOFF_MAX) (attempt + 1) (sleeps ++ [w]) (reqs + 1))
        · simp [fetch_loop, htr, h200, h429]

/-- With at least one attempt available, the retry loop issues at least one
transport request. -/
theorem fetch_loop_req_pos (transport : Nat → TransportOutcome) (key : String)
    (fuel : Nat) (cache : Cache) (now backoff attempt : Nat) (sleeps : List Nat)
    (reqs : Nat) (hfuel : 1 ≤ fuel) :
    reqs + 1 ≤ (fetch_loop transport key fuel cache now backoff attempt sleeps reqs).requests := by
  cases fuel with
  | zero => omega
  | succ fuel =>
    cases htr : transport attempt with
    | exn => simp [fetch_loop, htr]
    | resp status ra body =>
      by_cases h200 : status = 200
      · cases body with
        | ok d => simp [fetch_loop, htr, h200]
        | error e => simp [fetch_loop, htr, h200]
      · by_cases h429 : status = 429
        · cases hw : retryWait ra backoff with
          | error e => simp [fetch_loop, htr, h200, h429, hw]
          | ok w =>
            have hstep :
                fetch_loop transport key (fuel + 1) cache now backoff attempt sleeps reqs
                  = fetch_loop transport key fuel cache (now + w)
                      (min (backoff * 2) BACKOFF_MAX) (attempt + 1)
                      (sleeps ++ [w]) (reqs + 1) := by
              simp only [fetch_loop, htr]; rw [if_neg h200, if_pos h429, hw]
            rw [hstep]
            exact fetch_loop_req_mono transport key fuel cache (now + w)
              (min (backoff * 2) BACKOFF_MAX) (attempt + 1) (sleeps ++ [w]) (reqs + 1)
        · simp [fetch_loop, htr, h200, h429]

/-- C1 counterexample: a 200 response whose body is not valid JSON makes
`resp.json()` raise outside the try block (line 83 of the source), so the
exception crosses the public boundary instead of collapsing to `None`. -/
theorem fetch_endpoint_raises_cex :
    (fetch_endpoint (fun _ => .resp 200 none (.error ())) [] 0 "/groups").ret
      = .error () := rfl

/-- C1 (amended): `fetch_endpoint` never propagates an exception provided
the cache lookup for its key does not itself raise (no fresh corrupt
entry), every 200 response body parses, and every 429 `Retry-After` hint
that passes `isdigit` is `int()`-convertible; every failure mode then
collapses to the `None` return.  The three excluded cases raise: a fresh
corrupt cache entry (line 50), a malformed 200 body (line 83, shown by
the counterexample), and a digit-type but non-convertible hint
(line 89, shown by `retry_hint_valueerror`). -/
theorem fetch_endpoint_no_raise (transport : Nat → TransportOutcome) (cache : Cache)
    (now : Nat) (path : String)
    (hget : ∃ v, get_cached cache now (BASE_URL ++ path) = .ok v)
    (hbody : ∀ i ra b, transport i = .resp 200 ra b → ∃ w, b = .ok w)
    (hhint : ∀ i ra b, transport i = .resp 429 ra b → hintOk ra) :
    (fetch_endpoint transport cache now path).ret ≠ .error () := by
  obtain ⟨v, hv⟩ := hget
  cases v with
  | jnull =>
    obtain ⟨w, hw⟩ := fetch_loop_ok transport (BASE_URL ++ path) hbody hhint
      MAX_RETRIES cache now BACKOFF_INITIAL 1 [] 0
    simp [fetch_endpoint, hv, hw]
  | jbool b => simp [fetch_endpoint, hv]
  | jnum n => simp [fetch_endpoint, hv]
  | jstr s => simp [fetch_endpoint, hv]
  | jarr l => simp [fetch_endpoint, hv]
  | jobj l => simp [fetch_endpoint, hv]

/-- C1 witness: concrete instance of `fetch_endpoint_no_raise` on a failing
transport and an empty cache. -/
theorem fetch_endpoint_no_raise_witness :
    (fetch_endpoint (fun _ => TransportOutcome.exn) [] 0 "/recent").ret ≠ .error () :=
  fetch_endpoint_no_raise (fun _ => TransportOutcome.exn) [] 0 "/recent"
    ⟨Json.jnull, rfl⟩ (fun _ _ _ h => nomatch h) (fun _ _ _ h => nomatch h)

/-- Line 89 raise path, concretely: a 429 whose `Retry-After` value is the
superscript two passes `str.isdigit` but `int()` raises `ValueError`, and
the exception propagates out of `fetch_endpoint` before any sleep. -/
theorem retry_hint_valueerror :
    (fetch_endpoint (fun _ => .resp 429 (some "²") (.ok .jnull)) [] 0 "/x").ret
        = .error () ∧
    (fetch_endpoint (fun _ => .resp 429 (some "²") (.ok .jnull)) [] 0 "/x").sleeps
        = [] := ⟨rfl, rfl⟩

/-- C2 counterexample: the cache holds a fresh, non-corrupt entry (the
serialized JSON value `null`) for the canonical key, yet `fetch_endpoint`
performs a transport request and returns the network payload rather than
the cached one. -/
theorem fetch_endpoint_cached_null_cex :
    (fetch_endpoint (fun _ => .resp 200 none (.ok (.jnum 7)))
        [(BASE_URL ++ "/x", (StoredText.ser Json.jnull, 0))] 0 "/x").requests = 1 ∧
    (fetch_endpoint (fun _ => .resp 200 none (.ok (.jnum 7)))
        [(BASE_URL ++ "/x", (StoredText.ser Json.jnull, 0))] 0 "/x").ret
      = .ok (Json.jnum 7) := ⟨rfl, rfl⟩

/-- C2 (amended): if the cache holds a fresh non-corrupt entry for the
canonical key whose payload deserializes to a value other than JSON
`null`, `fetch_endpoint` returns that payload, makes no transport
request, sleeps never, and leaves the cache unchanged. -/
theorem fetch_endpoint_fresh_hit (transport : Nat → TransportOutcome) (cache : Cache)
    (now : Nat) (path : String) (ts : Nat) (v : Json)
    (hlk : lookupRow cache (BASE_URL ++ path) = some (StoredText.ser v, ts))
    (hfresh : (now : Int) - (ts : Int) < (CACHE_TTL : Int))
    (hv : v ≠ Json.jnull) :
    fetch_endpoint transport cache now path = ⟨.ok v, cache, [], 0⟩ := by
  have hg : get_cached cache now (BASE_URL ++ path) = .ok v := by
    simp [get_cached, hlk, hfresh, pyLoads]
  cases v with
  | jnull => exact absurd rfl hv
  | jbool b => simp [fetch_endpoint, hg]
  | jnum n => simp [fetch_endpoint, hg]
  | jstr s => simp [fetch_endpoint, hg]
  | jarr l => simp [fetch_endpoint, hg]
  | jobj l => simp [fetch_endpoint, hg]

/-- C2 witness: concrete fresh cache hit served without any transport
invocation. -/
theorem fetch_endpoint_fresh_hit_witness :
    fetch_endpoint (fun _ => TransportOutcome.exn)
        [(BASE_URL ++ "/w", (StoredText.ser (Json.jnum 5), 10))] 10 "/w"
      = ⟨.ok (Json.jnum 5), [(BASE_URL ++ "/w", (StoredText.ser (Json.jnum 5), 10))],
          [], 0⟩ :=
  fetch_endpoint_fresh_hit (fun _ => TransportOutcome.exn)
    [(BASE_URL ++ "/w", (StoredText.ser (Json.jnum 5), 10))] 10 "/w" 10 (Json.jnum 5)
    rfl (by norm_num [CACHE_TTL]) (fun h => nomatch h)

/-- C3: with no fresh cache entry, four 429 responses with no hint followed
by a 200 with a parseable body produce sleeps of exactly 1, 2, 4, 8 in that
order, exactly 5 transport requests, and the fifth payload is written to
the cache and returned. -/
theorem fetch_endpoint_backoff_progression (transport : Nat → TransportOutcome)
    (cache : Cache) (now : Nat) (path : String) (b1 b2 b3 b4 : Except Unit Json)
    (ra5 : Option String) (d : Json)
    (hmiss : get_cached cache now (BASE_URL ++ path) = .ok Json.jnull)
    (h1 : transport 1 = .resp 429 none b1)
    (h2 : transport 2 = .resp 429 none b2)
    (h3 : transport 3 = .resp 429 none b3)
    (h4 : transport 4 = .resp 429 none b4)
    (h5 : transport 5 = .resp 200 ra5 (.ok d)) :
    (fetch_endpoint transport cache now path).sleeps = [1, 2, 4, 8] ∧
    (fetch_endpoint transport cache now path).requests = 5 ∧
    (fetch_endpoint transport cache now path).ret = .ok d ∧
    ∃ t2, (fetch_endpoint transport cache now path).cache
      = set_cache cache t2 (BASE_URL ++ path) d := by
  have hrun : fetch_endpoint transport cache now path
      = ⟨.ok d, set_cache cache (now + 1 + 2 + 4 + 8) (BASE_URL ++ path) d,
          [1, 2, 4, 8], 5⟩ := by
    simp [fetch_endpoint, hmiss, fetch_loop, h1, h2, h3, h4, h5, retryWait,
      MAX_RETRIES, BACKOFF_INITIAL, BACKOFF_MAX, Nat.min_def]
  rw [hrun]
  exact ⟨rfl, rfl, rfl, ⟨now + 1 + 2 + 4 + 8, rfl⟩⟩

/-- C3 witness: the backoff progression on the concrete stub transport. -/
theorem fetch_endpoint_backoff_progression_witness :
    (fetch_endpoint stub429x4then200 [] 0 "/x").sleeps = [1, 2, 4, 8] ∧
    (fetch_endpoint stub429x4then200 [] 0 "/x").requests = 5 ∧
    (fetch_endpoint stub429x4then200 [] 0 "/x").ret = .ok (Json.jnum 1) ∧
    ∃ t2, (fetch_endpoint stub429x4then200 [] 0 "/x").cache
      = set_cache [] t2 (BASE_URL ++ "/x") (Json.jnum 1) :=
  fetch_endpoint_backoff_progression stub429x4then200 [] 0 "/x"
    (.ok .jnull) (.ok .jnull) (.ok .jnull) (.ok .jnull) none (Json.jnum 1)
    rfl rfl rfl rfl rfl rfl

/-- C4: a server hint on a 429 overrides only that attempt's sleep while the
computed backoff still doubles: hint 3 on attempt 1 and no hint on attempt 2
give a first sleep of 3 and a second sleep of 2 (the next computed backoff,
not a restart from 1). -/
theorem fetch_endpoint_hint_single_wait (transport : Nat → TransportOutcome)
    (cache : Cache) (now : Nat) (path : String) (b1 b2 : Except Unit Json)
    (hmiss : get_cached cache now (BASE_URL ++ path) = .ok Json.jnull)
    (h1 : transport 1 = .resp 429 (some "3") b1)
    (h2 : transport 2 = .resp 429 none b2) :
    ∃ rest, (fetch_endpoint transport cache now path).sleeps = 3 :: 2 :: rest := by
  have hd : pyIsDigit "3" = true := rfl
  have hn : pyInt "3" = .ok 3 := rfl
  have hstep : fetch_endpoint transport cache now path
      = fetch_loop transport (BASE_URL ++ path) 3 cache (now + 3 + 2) 4 3 [3, 2] 2 := by
    simp [fetch_endpoint, hmiss, fetch_loop, h1, h2, retryWait, hd, hn,
      MAX_RETRIES, BACKOFF_INITIAL, BACKOFF_MAX, Nat.min_def]
  obtain ⟨rest, hrest⟩ := fetch_loop_sleeps_acc transport (BASE_URL ++ path) 3 cache
    (now + 3 + 2) 4 3 [3, 2] 2
  exact ⟨rest, by rw [hstep, hrest]; simp⟩

/-- C4 witness: the hint-then-computed-backoff sleeps on the concrete stub
transport. -/
theorem fetch_endpoint_hint_single_wait_witness :
    ∃ rest, (fetch_endpoint stubHintThen429 [] 0 "/x").sleeps = 3 :: 2 :: rest :=
  fetch_endpoint_hint_single_wait stubHintThen429 [] 0 "/x"
    (.ok .jnull) (.ok .jnull) rfl rfl rfl


/-- C5 counterexample: a fresh cache entry whose stored payload does not
deserialize makes `json.loads` raise inside `get_cached` (line 50), and the
exception propagates out of `fetch_endpoint` instead of being treated as a
cache miss. -/
theorem fetch_endpoint_fresh_corrupt_cex :
    (fetch_endpoint (fun _ => TransportOutcome.exn)
        [(BASE_URL ++ "/v", (StoredText.corrupt, 0))] 0 "/v").ret = .error () := rfl

/-- C5 (amended): a corrupt stored payload is treated as a cache miss only
when the entry is stale (the TTL check precedes deserialization); when the
entry is fresh, the deserialization error propagates to the caller. -/
theorem corrupt_entry_behavior (transport : Nat → TransportOutcome) (cache : Cache)
    (now : Nat) (path : String) (ts : Nat)
    (hlk : lookupRow cache (BASE_URL ++ path) = some (StoredText.corrupt, ts)) :
    (¬ ((now : Int) - (ts : Int) < (CACHE_TTL : Int)) →
      fetch_endpoint transport cache now path
        = fetch_loop transport (BASE_URL ++ path) MAX_RETRIES cache now
            BACKOFF_INITIAL 1 [] 0 ∧
      1 ≤ (fetch_endpoint transport cache now path).requests) ∧
    (((now : Int) - (ts : Int) < (CACHE_TTL : Int)) →
      (fetch_endpoint transport cache now path).ret = .error ()) := by
  constructor
  · intro hstale
    have hg : get_cached cache now (BASE_URL ++ path) = .ok Json.jnull := by
      simp [get_cached, hlk, hstale]
    have hrun : fetch_endpoint transport cache now path
        = fetch_loop transport (BASE_URL ++ path) MAX_RETRIES cache now
            BACKOFF_INITIAL 1 [] 0 := by
      simp [fetch_endpoint, hg]
    refine ⟨hrun, ?_⟩
    rw [hrun]
    simpa using fetch_loop_req_pos transport (BASE_URL ++ path) MAX_RETRIES cache now
      BACKOFF_INITIAL 1 [] 0 (by norm_num [MAX_RETRIES])
  · intro hfresh
    have hg : get_cached cache now (BASE_URL ++ path) = .error () := by
      simp [get_cached, hlk, hfresh, pyLoads]
    simp [fetch_endpoint, hg]

/-- C5 witness: concrete instance of `corrupt_entry_behavior` on a cache
holding a corrupt row. -/
theorem corrupt_entry_behavior_witness :
    (¬ (((5 : Nat) : Int) - ((5 : Nat) : Int) < (CACHE_TTL : Int)) →
      fetch_endpoint (fun _ => TransportOutcome.exn)
          [(BASE_URL ++ "/v2", (StoredText.corrupt, 5))] 5 "/v2"
        = fetch_loop (fun _ => TransportOutcome.exn) (BASE_URL ++ "/v2") MAX_RETRIES
            [(BASE_URL ++ "/v2", (StoredText.corrupt, 5))] 5 BACKOFF_INITIAL 1 [] 0 ∧
      1 ≤ (fetch_endpoint (fun _ => TransportOutcome.exn)
          [(BASE_URL ++ "/v2", (StoredText.corrupt, 5))] 5 "/v2").requests) ∧
    ((((5 : Nat) : Int) - ((5 : Nat) : Int) < (CACHE_TTL : Int)) →
      (fetch_endpoint (fun _ => TransportOutcome.exn)
          [(BASE_URL ++ "/v2", (StoredText.corrupt, 5))] 5 "/v2").ret = .error ()) :=
  corrupt_entry_behavior (fun _ => TransportOutcome.exn)
    [(BASE_URL ++ "/v2", (StoredText.corrupt, 5))] 5 "/v2" 5 rfl

/-- C6: on a cache miss followed by five consecutive 429 responses (whose
hints, if any, do not make line 89 raise) the call returns `None` and the
store is untouched; and in general any run that changes the store did so
through `set_cache` with the payload of a 200 response whose body parsed,
which is also the value returned. -/
theorem fetch_endpoint_writes_only_success (transport : Nat → TransportOutcome)
    (cache : Cache) (now : Nat) (path : String)
    (hmiss : get_cached cache now (BASE_URL ++ path) = .ok Json.jnull)
    (h429 : ∀ i, 1 ≤ i → i ≤ MAX_RETRIES →
      ∃ ra b, transport i = .resp 429 ra b ∧ hintOk ra) :
    (fetch_endpoint transport cache now path).ret = .ok Json.jnull ∧
    (fetch_endpoint transport cache now path).cache = cache ∧
    ∀ t2 c2 n2 p2, (fetch_endpoint t2 c2 n2 p2).cache ≠ c2 →
      ∃ i ra d t3, t2 i = .resp 200 ra (.ok d) ∧
        (fetch_endpoint t2 c2 n2 p2).cache = set_cache c2 t3 (BASE_URL ++ p2) d ∧
        (fetch_endpoint t2 c2 n2 p2).ret = .ok d := by
  have hrun : fetch_endpoint transport cache now path
      = fetch_loop transport (BASE_URL ++ path) MAX_RETRIES cache now
          BACKOFF_INITIAL 1 [] 0 := by
    simp [fetch_endpoint, hmiss]
  obtain ⟨hret, hcache⟩ := fetch_loop_429_all transport (BASE_URL ++ path)
    MAX_RETRIES 1 cache now BACKOFF_INITIAL [] 0
    (fun i hi1 hi2 => h429 i hi1 (by omega))
  refine ⟨by rw [hrun]; exact hret, by rw [hrun]; exact hcache, ?_⟩
  intro t2 c2 n2 p2 hne
  cases hg : get_cached c2 n2 (BASE_URL ++ p2) with
  | error e => exact absurd (by simp [fetch_endpoint, hg]) hne
  | ok v =>
    cases v with
    | jnull =>
      have hrun2 : fetch_endpoint t2 c2 n2 p2
          = fetch_loop t2 (BASE_URL ++ p2) MAX_RETRIES c2 n2 BACKOFF_INITIAL 1 [] 0 := by
        simp [fetch_endpoint, hg]
      rw [hrun2] at hne ⊢
      rcases fetch_loop_cache_write t2 (BASE_URL ++ p2) MAX_RETRIES c2 n2
        BACKOFF_INITIAL 1 [] 0 with h | ⟨i, ra, d, t3, hi, hc, hr⟩
      · exact absurd h hne
      · exact ⟨i, ra, d, t3, hi, hc, hr⟩
    | jbool b => exact absurd (by simp [fetch_endpoint, hg]) hne
    | jnum n => exact absurd (by simp [fetch_endpoint, hg]) hne
    | jstr s => exact absurd (by simp [fetch_endpoint, hg]) hne
    | jarr l => exact absurd (by simp [fetch_endpoint, hg]) hne
    | jobj l => exact absurd (by simp [fetch_endpoint, hg]) hne

/-- C6 witness: retry exhaustion under the always-429 stub leaves the empty
store empty and returns `None`. -/
theorem fetch_endpoint_writes_only_success_witness :
    (fetch_endpoint stubAlways429 [] 0 "/y").ret = .ok Json.jnull ∧
    (fetch_endpoint stubAlways429 [] 0 "/y").cache = [] ∧
    ∀ t2 c2 n2 p2, (fetch_endpoint t2 c2 n2 p2).cache ≠ c2 →
      ∃ i ra d t3, t2 i = .resp 200 ra (.ok d) ∧
        (fetch_endpoint t2 c2 n2 p2).cache = set_cache c2 t3 (BASE_URL ++ p2) d ∧
        (fetch_endpoint t2 c2 n2 p2).ret = .ok d :=
  fetch_endpoint_writes_only_success stubAlways429 [] 0 "/y" rfl
    (fun _ _ _ => ⟨none, .ok .jnull, rfl, fun _ hs _ => nomatch hs⟩)

/-- C7: on a cache miss, a 404 response makes `fetch_endpoint` return `None`
immediately: one transport request, no sleeps, and the store untouched. -/
theorem fetch_endpoint_404_untouched (transport : Nat → TransportOutcome)
    (cache : Cache) (now : Nat) (path : String) (ra : Option String)
    (b : Except Unit Json)
    (hmiss : get_cached cache now (BASE_URL ++ path) = .ok Json.jnull)
    (h1 : transport 1 = .resp 404 ra b) :
    fetch_endpoint transport cache now path = ⟨.ok Json.jnull, cache, [], 1⟩ := by
  simp [fetch_endpoint, hmiss, fetch_loop, h1, MAX_RETRIES]

/-- C7 witness: the 404 stub on an empty cache. -/
theorem fetch_endpoint_404_untouched_witness :
    fetch_endpoint stub404 [] 0 "/searchvictims/acme"
      = ⟨.ok Json.jnull, [], [], 1⟩ :=
  fetch_endpoint_404_untouched stub404 [] 0 "/searchvictims/acme" none (.ok .jnull)
    rfl rfl

/-- C8: a transport-level failure on attempt `k` (any earlier attempts being
rate-limited, with hints on which line 89 does not raise) makes
`fetch_endpoint` return `None` immediately: exactly `k` requests are made
(no retry after the failure) and the store is untouched. -/
theorem fetch_endpoint_transport_failure (transport : Nat → TransportOutcome)
    (cache : Cache) (now : Nat) (path : String) (k : Nat)
    (hmiss : get_cached cache now (BASE_URL ++ path) = .ok Json.jnull)
    (hk1 : 1 ≤ k) (hk5 : k ≤ MAX_RETRIES)
    (h429 : ∀ i, 1 ≤ i → i < k → ∃ ra b, transport i = .resp 429 ra b ∧ hintOk ra)
    (hexn : transport k = .exn) :
    (fetch_endpoint transport cache now path).ret = .ok Json.jnull ∧
    (fetch_endpoint transport cache now path).cache = cache ∧
    (fetch_endpoint transport cache now path).requests = k := by
  have hrun : fetch_endpoint transport cache now path
      = fetch_loop transport (BASE_URL ++ path) MAX_RETRIES cache now
          BACKOFF_INITIAL 1 [] 0 := by
    simp [fetch_endpoint, hmiss]
  obtain ⟨hret, hcache, hreq⟩ := fetch_loop_exn_stop transport (BASE_URL ++ path) k
    MAX_RETRIES 1 cache now BACKOFF_INITIAL [] 0 hk1 (by omega) h429 hexn
  exact ⟨by rw [hrun]; exact hret, by rw [hrun]; exact hcache,
    by rw [hrun, hreq]; omega⟩

/-- C8 witness: a 429 then a raised transport exception stops after exactly
two requests with the store untouched. -/
theorem fetch_endpoint_transport_failure_witness :
    (fetch_endpoint stub429ThenExn [] 0 "/z").ret = .ok Json.jnull ∧
    (fetch_endpoint stub429ThenExn [] 0 "/z").cache = [] ∧
    (fetch_endpoint stub429ThenExn [] 0 "/z").requests = 2 :=
  fetch_endpoint_transport_failure stub429ThenExn [] 0 "/z" 2 rfl
    (by decide) (by decide)
    (fun i hi1 hi2 => ⟨none, .ok .jnull, by
      have h : i = 1 := by omega
      subst h; exact ⟨rfl, fun _ hs _ => nomatch hs⟩⟩)
    rfl

/-- C9: `set_cache` immediately followed by `get_cached` at the same time
returns the stored payload unchanged, for every key and payload. -/
theorem set_cache_get_cached_roundtrip (cache : Cache) (now : Nat) (key : String)
    (p : Json) :
    get_cached (set_cache cache now key p) now key = .ok p := by
  simp [get_cached, set_cache, pyDumps, lookupRow_upsert, pyLoads, CACHE_TTL]

/-- C10: a fresh non-corrupt cache entry whose stored payload is the JSON
value `null` is returned by `get_cached` as the Python `None`, so
`fetch_endpoint` treats it as a miss and enters the retry loop, issuing at
least one transport request. -/
theorem cached_null_treated_as_miss (transport : Nat → TransportOutcome)
    (cache : Cache) (now : Nat) (path : String) (ts : Nat)
    (hlk : lookupRow cache (BASE_URL ++ path) = some (StoredText.ser Json.jnull, ts))
    (hfresh : (now : Int) - (ts : Int) < (CACHE_TTL : Int)) :
    get_cached cache now (BASE_URL ++ path) = .ok Json.jnull ∧
    fetch_endpoint transport cache now path
      = fetch_loop transport (BASE_URL ++ path) MAX_RETRIES cache now
          BACKOFF_INITIAL 1 [] 0 ∧
    1 ≤ (fetch_endpoint transport cache now path).requests := by
  have hg : get_cached cache now (BASE_URL ++ path) = .ok Json.jnull := by
    simp [get_cached, hlk, hfresh, pyLoads]
  have hrun : fetch_endpoint transport cache now path
      = fetch_loop transport (BASE_URL ++ path) MAX_RETRIES cache now
          BACKOFF_INITIAL 1 [] 0 := by
    simp [fetch_endpoint, hg]
  refine ⟨hg, hrun, ?_⟩
  rw [hrun]
  simpa using fetch_loop_req_pos transport (BASE_URL ++ path) MAX_RETRIES cache now
    BACKOFF_INITIAL 1 [] 0 (by norm_num [MAX_RETRIES])

/-- C10 witness: a fresh stored `null` is bypassed and the transport is
invoked. -/
theorem cached_null_treated_as_miss_witness :
    get_cached [(BASE_URL ++ "/null", (StoredText.ser Json.jnull, 0))] 0
        (BASE_URL ++ "/null") = .ok Json.jnull ∧
    fetch_endpoint (fun _ => TransportOutcome.exn)
        [(BASE_URL ++ "/null", (StoredText.ser Json.jnull, 0))] 0 "/null"
      = fetch_loop (fun _ => TransportOutcome.exn) (BASE_URL ++ "/null") MAX_RETRIES
          [(BASE_URL ++ "/null", (StoredText.ser Json.jnull, 0))] 0
          BACKOFF_INITIAL 1 [] 0 ∧
    1 ≤ (fetch_endpoint (fun _ => TransportOutcome.exn)
        [(BASE_URL ++ "/null", (StoredText.ser Json.jnull, 0))] 0 "/null").requests :=
  cached_null_treated_as_miss (fun _ => TransportOutcome.exn)
    [(BASE_URL ++ "/null", (StoredText.ser Json.jnull, 0))] 0 "/null" 0 rfl
    (by norm_num [CACHE_TTL])
